import Mathlib

/-!
Shallow embedding of `src/gl_texture.cpp`, a small OpenGL demo that
compiles a shader program from two source files, uploads a full-viewport
quad, loads a raw RGB image into a texture, and runs a render loop.

The OpenGL / GLFW driver is modelled as an explicit environment that
supplies the answers the real driver would give back (fresh handles,
compile and link statuses, info logs, attribute locations, the sequence
of window-close answers).  Each C++ function becomes a pure Lean
function from such an environment to its return value together with the
trace of driver calls it issues, recorded as a `List GLEvent` in program
order.  The file system is a partial map from path to contents: shader
files are read as text (a missing file yields the empty string, the
behaviour of `std::ifstream` plus `istreambuf_iterator` on a stream in
the fail state), the image file as a byte list (a missing or failing
stream reads zero bytes).  `GLfloat` literals in the program are only
`0.0f` and `±1.0f`, which are exact, so vertex data is carried as `Int`
and clear-colour components (`0.5f`, exact in binary floating point) as
`Rat`.
-/

/-- Constants of the OpenGL / GLFW API used by the program, with their
standard numeric values. -/
def GL_VERTEX_SHADER : Nat := 0x8B31

def GL_FRAGMENT_SHADER : Nat := 0x8B30

def GL_COMPILE_STATUS : Nat := 0x8B81

def GL_INFO_LOG_LENGTH : Nat := 0x8B84

def GL_LINK_STATUS : Nat := 0x8B82

def GL_ARRAY_BUFFER : Nat := 0x8892

def GL_STATIC_DRAW : Nat := 0x88E4

def GL_FLOAT : Nat := 0x1406

def GL_TEXTURE_2D : Nat := 0x0DE1

def GL_TEXTURE_MAG_FILTER : Nat := 0x2800

def GL_TEXTURE_MIN_FILTER : Nat := 0x2801

def GL_LINEAR : Nat := 0x2601

def GL_RGB : Nat := 0x1907

def GL_UNSIGNED_BYTE : Nat := 0x1401

def GL_TRIANGLE_STRIP : Nat := 0x0005

def GL_COLOR_BUFFER_BIT : Nat := 0x4000

def GL_DEPTH_BUFFER_BIT : Nat := 0x0100

def GLFW_SAMPLES : Nat := 0x0002100D

def GLFW_CONTEXT_VERSION_MAJOR : Nat := 0x00022002

def GLFW_CONTEXT_VERSION_MINOR : Nat := 0x00022003

def GLFW_OPENGL_FORWARD_COMPAT : Nat := 0x00022006

def GLFW_OPENGL_PROFILE : Nat := 0x00022008

def GLFW_OPENGL_CORE_PROFILE : Nat := 0x00032001

def GL_TRUE : Nat := 1

/-- Process exit code `EXIT_SUCCESS`. -/
def EXIT_SUCCESS : Nat := 0

/-- Process exit code `EXIT_FAILURE`. -/
def EXIT_FAILURE : Nat := 1

/-- Window size constant `SIZE` from line 12 of the source. -/
def SIZE : Nat := 512

/-- One driver call issued by the program, in the order the C++ code
makes them.  Output parameters the driver fills in (generated handles)
are recorded alongside the call; `print` is `std::cout`, `printErr` is
`std::cerr`. -/
inductive GLEvent where
  | createShader (shaderType : Nat) (id : Nat)
  | shaderSource (shader : Nat) (count : Nat) (source : String)
  | compileShader (shader : Nat)
  | getShaderiv (shader : Nat) (pname : Nat)
  | getShaderInfoLog (shader : Nat) (maxLength : Nat)
  | getProgramiv (program : Nat) (pname : Nat)
  | getProgramInfoLog (program : Nat) (maxLength : Nat)
  | print (s : String)
  | printErr (s : String)
  | createProgram (id : Nat)
  | attachShader (program : Nat) (shader : Nat)
  | bindFragDataLocation (program : Nat) (colorNumber : Nat) (name : String)
  | linkProgram (program : Nat)
  | deleteShader (shader : Nat)
  | genVertexArrays (n : Nat) (id : Nat)
  | bindVertexArray (id : Nat)
  | genBuffers (n : Nat) (id : Nat)
  | bindBuffer (target : Nat) (id : Nat)
  | bufferData (target : Nat) (size : Nat) (data : List Int) (usage : Nat)
  | getAttribLocation (program : Nat) (name : String)
  | vertexAttribPointer (loc : Int) (size : Nat) (ty : Nat) (normalized : Bool) (stride : Nat) (offset : Nat)
  | enableVertexAttribArray (loc : Int)
  | genTextures (n : Nat) (id : Nat)
  | bindTexture (target : Nat) (id : Nat)
  | texParameteri (target : Nat) (pname : Nat) (param : Nat)
  | readBinary (path : String) (requested : Nat)
  | texImage2D (target : Nat) (level : Nat) (internalFormat : Nat) (width : Nat) (height : Nat) (border : Nat) (format : Nat) (ty : Nat) (data : List Nat)
  | glfwInitCall
  | windowHint (target : Nat) (value : Nat)
  | createWindow (width : Nat) (height : Nat) (title : String)
  | makeContextCurrent
  | glewInitCall
  | glewIsSupportedQuery (version : String)
  | glfwTerminate
  | useProgram (id : Nat)
  | getUniformLocation (program : Nat) (name : String)
  | uniform1i (loc : Int) (value : Nat)
  | activeTexture (unit : Nat)
  | clearColor (r : Rat) (g : Rat) (b : Rat) (a : Rat)
  | clear (mask : Nat)
  | drawArrays (mode : Nat) (first : Nat) (count : Nat)
  | swapBuffers
  | pollEvents
deriving DecidableEq, Repr

/-- Answers the GL driver gives back during `ShaderProgram`: the handles
returned by `glCreateShader` / `glCreateProgram`, the compile and link
statuses reported by `glGetShaderiv` / `glGetProgramiv`
(`true` = `GL_TRUE`), and the info logs. -/
structure GLEnv where
  vertexShaderId : Nat
  fragmentShaderId : Nat
  programId : Nat
  vertexCompileOk : Bool
  fragmentCompileOk : Bool
  linkOk : Bool
  vertexLog : String
  fragmentLog : String
  programLog : String
deriving DecidableEq, Repr

/-- Embedding of `ShaderProgram` (src/gl_texture.cpp lines 14-78).
Reads both shader source files (a missing file reads as the empty
string), compiles each stage, printing the info log of a stage whose
compile status is `GL_FALSE`, links the program, printing its log on
link failure, deletes both shader objects and returns the program
handle unconditionally. -/
def ShaderProgram (env : GLEnv) (fs : String → Option String)
    (vertex_shader_file : String) (fragment_shader_file : String) :
    Nat × List GLEvent :=
  let vertex_shader_id := env.vertexShaderId
  let fragment_shader_id := env.fragmentShaderId
  let vertex_shader_code := (fs vertex_shader_file).getD ""
  let fragment_shader_code := (fs fragment_shader_file).getD ""
  let vertexStage : List GLEvent :=
    [.print "Compiling Vertex Shader ...",
     .shaderSource vertex_shader_id 1 vertex_shader_code,
     .compileShader vertex_shader_id,
     .getShaderiv vertex_shader_id GL_COMPILE_STATUS] ++
    (if env.vertexCompileOk then [] else
      [.getShaderiv vertex_shader_id GL_INFO_LOG_LENGTH,
       .getShaderInfoLog vertex_shader_id env.vertexLog.length,
       .print env.vertexLog])
  let fragmentStage : List GLEvent :=
    [.print "Compiling Fragment Shader ...",
     .shaderSource fragment_shader_id 1 fragment_shader_code,
     .compileShader fragment_shader_id,
     .getShaderiv fragment_shader_id GL_COMPILE_STATUS] ++
    (if env.fragmentCompileOk then [] else
      [.getShaderiv fragment_shader_id GL_INFO_LOG_LENGTH,
       .getShaderInfoLog fragment_shader_id env.fragmentLog.length,
       .print env.fragmentLog])
  let linkStage : List GLEvent :=
    [.print "Linking Shader Program ...",
     .createProgram env.programId,
     .attachShader env.programId vertex_shader_id,
     .attachShader env.programId fragment_shader_id,
     .bindFragDataLocation env.programId 0 "FragmentColor",
     .linkProgram env.programId,
     .getProgramiv env.programId GL_LINK_STATUS] ++
    (if env.linkOk then [] else
      [.getProgramiv env.programId GL_INFO_LOG_LENGTH,
       .getProgramInfoLog env.programId env.programLog.length,
       .print env.programLog])
  (env.programId,
   [.createShader GL_VERTEX_SHADER vertex_shader_id,
    .createShader GL_FRAGMENT_SHADER fragment_shader_id] ++
   vertexStage ++ fragmentStage ++ linkStage ++
   [.deleteShader vertex_shader_id,
    .deleteShader fragment_shader_id])

/-- Answers the driver gives back during `InitializeGeometry`: the
generated vertex-array and buffer handles and the attribute locations
returned by `glGetAttribLocation` (`-1` when the named attribute does
not exist in the linked program). -/
structure GeoEnv where
  vaoId : Nat
  vboId : Nat
  tboId : Nat
  positionLoc : Int
  texcoordLoc : Int
deriving DecidableEq, Repr

/-- Vertex position buffer from src/gl_texture.cpp lines 87-93
(x, y pairs; the `GLfloat` values are exactly `±1.0f`). -/
def vertex_buffer : List Int := [1, 1, -1, 1, 1, -1, -1, -1]

/-- Texture coordinate buffer from src/gl_texture.cpp lines 107-113
(u, v pairs; the `GLfloat` values are exactly `0.0f` / `1.0f`). -/
def texcoord_buffer : List Int := [1, 0, 0, 0, 1, 1, 0, 1]

/-- Byte size of one `GLfloat`. -/
def sizeofGLfloat : Nat := 4

/-- Embedding of `InitializeGeometry` (src/gl_texture.cpp lines 80-123).
Creates a vertex array object, uploads the position and texture
coordinate buffers, and wires each to the attribute location the driver
reports for names "Position" and "TexCoord", with no check on those
locations. -/
def InitializeGeometry (env : GeoEnv) (program_id : Nat) : List GLEvent :=
  [.genVertexArrays 1 env.vaoId,
   .bindVertexArray env.vaoId,
   .genBuffers 1 env.vboId,
   .bindBuffer GL_ARRAY_BUFFER env.vboId,
   .bufferData GL_ARRAY_BUFFER (vertex_buffer.length * sizeofGLfloat) vertex_buffer GL_STATIC_DRAW,
   .getAttribLocation program_id "Position",
   .vertexAttribPointer env.positionLoc 2 GL_FLOAT false 0 0,
   .enableVertexAttribArray env.positionLoc,
   .genBuffers 1 env.tboId,
   .bindBuffer GL_ARRAY_BUFFER env.tboId,
   .bufferData GL_ARRAY_BUFFER (texcoord_buffer.length * sizeofGLfloat) texcoord_buffer GL_STATIC_DRAW,
   .getAttribLocation program_id "TexCoord",
   .vertexAttribPointer env.texcoordLoc 2 GL_FLOAT false 0 0,
   .enableVertexAttribArray env.texcoordLoc]

/-- Semantics of `std::istream::read(buffer.data(), buffer.size())`: the
stream delivers at most `buffer.length` bytes of `content`, overwriting
the front of `buffer` and leaving the rest of `buffer` unchanged. -/
def streamReadInto (content : List Nat) (buffer : List Nat) : List Nat :=
  content.take buffer.length ++ buffer.drop (min content.length buffer.length)

/-- Pixel buffer `LoadImage` ends up uploading: `std::vector<char>
buffer(width*height*3)` value-initializes every byte to zero
(src/gl_texture.cpp line 140), then the file read overwrites the front
with the bytes actually present in the file.  `width` and `height` are
`unsigned int`, so the size expression `width*height*3` is computed in
wrapping 32-bit unsigned arithmetic: the allocated size is
`width*height*3 % 2^32`. -/
def loadImageBuffer (fsb : String → Option (List Nat))
    (image_file : String) (width : Nat) (height : Nat) : List Nat :=
  streamReadInto ((fsb image_file).getD [])
    (List.replicate ((width * height * 3) % 2 ^ 32) 0)

/-- Embedding of `LoadImage` (src/gl_texture.cpp lines 126-147).
Generates and binds a texture handle, sets linear mag/min filtering,
reads up to `buffer.size()` bytes from the file opened in binary mode
into a zero-initialized buffer — the size expression `width*height*3`
is 32-bit unsigned arithmetic, so the buffer holds
`width*height*3 % 2^32` bytes — uploads the buffer as an RGB texture at
mip level 0, and returns the handle. -/
def LoadImage (texture_id : Nat) (fsb : String → Option (List Nat))
    (image_file : String) (width : Nat) (height : Nat) :
    Nat × List GLEvent :=
  let buffer := loadImageBuffer fsb image_file width height
  (texture_id,
   [.genTextures 1 texture_id,
    .bindTexture GL_TEXTURE_2D texture_id,
    .texParameteri GL_TEXTURE_2D GL_TEXTURE_MAG_FILTER GL_LINEAR,
    .texParameteri GL_TEXTURE_2D GL_TEXTURE_MIN_FILTER GL_LINEAR,
    .readBinary image_file ((width * height * 3) % 2 ^ 32),
    .texImage2D GL_TEXTURE_2D 0 GL_RGB width height 0 GL_RGB GL_UNSIGNED_BYTE buffer])

/-- Driver calls of one iteration of the render loop body
(src/gl_texture.cpp lines 197-209): clear colour `0.5f` gray, clear
colour+depth, one 4-vertex triangle-strip draw, swap, poll. -/
def frameEvents : List GLEvent :=
  [.clearColor (1/2) (1/2) (1/2) 0,
   .clear (GL_COLOR_BUFFER_BIT ||| GL_DEPTH_BUFFER_BIT),
   .drawArrays GL_TRIANGLE_STRIP 0 4,
   .swapBuffers,
   .pollEvents]

/-- Render loop `while (!glfwWindowShouldClose(window)) { ... }`: the
argument is the finite sequence of answers `glfwWindowShouldClose`
gives on successive queries; the loop runs the frame body for each
`false` and stops at the first `true`. -/
def mainLoop : List Bool → List GLEvent
  | [] => []
  | true :: _ => []
  | false :: rest => frameEvents ++ mainLoop rest

/-- Answers the environment gives back to `main`: whether `glfwInit`
succeeds, whether `glfwCreateWindow` returns a window, whether GLEW
reports OpenGL 3.3 support, the `glfwWindowShouldClose` answer
sequence, the driver answers for the shader program and geometry setup,
and the texture handle and sampler uniform location. -/
structure MainEnv where
  glfwInitOk : Bool
  windowOk : Bool
  glew33 : Bool
  closeFlags : List Bool
  gl : GLEnv
  geo : GeoEnv
  textureId : Nat
  textureUniformLoc : Int
deriving DecidableEq, Repr

/-- Window hint calls from src/gl_texture.cpp lines 157-161. -/
def windowHintEvents : List GLEvent :=
  [.windowHint GLFW_SAMPLES 4,
   .windowHint GLFW_CONTEXT_VERSION_MAJOR 3,
   .windowHint GLFW_CONTEXT_VERSION_MINOR 3,
   .windowHint GLFW_OPENGL_FORWARD_COMPAT GL_TRUE,
   .windowHint GLFW_OPENGL_PROFILE GLFW_OPENGL_CORE_PROFILE]

namespace GlTexture

/-- Embedding of `main` (src/gl_texture.cpp lines 149-215): returns the
process exit code together with the trace of driver calls. -/
def main (env : MainEnv) (fs : String → Option String)
    (fsb : String → Option (List Nat)) : Nat × List GLEvent :=
  if env.glfwInitOk = false then
    (EXIT_FAILURE,
     [.glfwInitCall, .printErr "Failed to initialize GLFW!"])
  else if env.windowOk = false then
    (EXIT_FAILURE,
     [.glfwInitCall] ++ windowHintEvents ++
     [.createWindow SIZE SIZE "OpenGL",
      .printErr "Failed to open GLFW window, your graphics card is probably only capable of OpenGL 2.1",
      .glfwTerminate])
  else if env.glew33 = false then
    (EXIT_FAILURE,
     [.glfwInitCall] ++ windowHintEvents ++
     [.createWindow SIZE SIZE "OpenGL",
      .makeContextCurrent, .glewInitCall,
      .glewIsSupportedQuery "GL_VERSION_3_3",
      .printErr "Failed to initialize GLEW with OpenGL 3.3!",
      .glfwTerminate])
  else
    let sp := ShaderProgram env.gl fs "gl_texture.vert" "gl_texture.frag"
    let li := LoadImage env.textureId fsb "lena.rgb" SIZE SIZE
    (EXIT_SUCCESS,
     [.glfwInitCall] ++ windowHintEvents ++
     [.createWindow SIZE SIZE "OpenGL",
      .makeContextCurrent, .glewInitCall,
      .glewIsSupportedQuery "GL_VERSION_3_3"] ++
     sp.2 ++ [.useProgram sp.1] ++
     InitializeGeometry env.geo sp.1 ++
     li.2 ++
     [.getUniformLocation sp.1 "Texture",
      .uniform1i env.textureUniformLoc 0,
      .activeTexture 0,
      .bindTexture GL_TEXTURE_2D li.1] ++
     mainLoop env.closeFlags ++
     [.glfwTerminate])

end GlTexture

/-- Running the loop on a `glfwWindowShouldClose` answer sequence produces
one copy of the frame body per leading `false` answer. -/
theorem mainLoop_eq_flat (flags : List Bool) :
    mainLoop flags = (flags.takeWhile (fun b => !b)).flatMap (fun _ => frameEvents) := by
  induction flags with
  | nil => rfl
  | cons b rest ih =>
      cases b
      · simpa [mainLoop, List.takeWhile_cons] using congrArg (frameEvents ++ ·) ih
      · simp [mainLoop, List.takeWhile_cons]

/-- C1: For every pair of shader source texts, `ShaderProgram` never aborts
or signals failure to its caller: it always returns the program handle, and
when the compile status of either stage (or the link status) is `GL_FALSE`
it fetches and prints that stage's diagnostic log and continues. -/
theorem shaderProgram_log_and_continue (env : GLEnv) (fs : String → Option String)
    (v : String) (f : String) :
    (ShaderProgram env fs v f).1 = env.programId ∧
    (env.vertexCompileOk = false →
      GLEvent.getShaderInfoLog env.vertexShaderId env.vertexLog.length ∈ (ShaderProgram env fs v f).2 ∧
      GLEvent.print env.vertexLog ∈ (ShaderProgram env fs v f).2) ∧
    (env.fragmentCompileOk = false →
      GLEvent.getShaderInfoLog env.fragmentShaderId env.fragmentLog.length ∈ (ShaderProgram env fs v f).2 ∧
      GLEvent.print env.fragmentLog ∈ (ShaderProgram env fs v f).2) ∧
    (env.linkOk = false →
      GLEvent.getProgramInfoLog env.programId env.programLog.length ∈ (ShaderProgram env fs v f).2 ∧
      GLEvent.print env.programLog ∈ (ShaderProgram env fs v f).2) := by
  refine ⟨rfl, ?_, ?_, ?_⟩ <;> intro h <;>
    constructor <;> simp [ShaderProgram, h]

/-- C1, evaluated: at a driver environment where both stages and the link
fail, the program handle is still returned and the vertex log is printed. -/
theorem shaderProgram_log_and_continue_witness :
    (ShaderProgram ⟨1, 2, 3, false, false, false, "vlog", "flog", "plog"⟩
      (fun _ => none) "a" "b").1 = 3 ∧
    GLEvent.print "vlog" ∈ (ShaderProgram ⟨1, 2, 3, false, false, false, "vlog", "flog", "plog"⟩
      (fun _ => none) "a" "b").2 := by
  have h := shaderProgram_log_and_continue ⟨1, 2, 3, false, false, false, "vlog", "flog", "plog"⟩
    (fun _ => none) "a" "b"
  exact ⟨h.1, (h.2.1 rfl).2⟩

/-- Reading into a buffer never changes its length: the stream delivers at
most `buffer.length` bytes. -/
theorem streamReadInto_length (content : List Nat) (buffer : List Nat) :
    (streamReadInto content buffer).length = buffer.length := by
  simp [streamReadInto]
  omega

/-- Pixel buffer length is exactly the allocated `width*height*3 % 2^32`. -/
theorem loadImageBuffer_length (fsb : String → Option (List Nat)) (file : String)
    (w : Nat) (h : Nat) :
    (loadImageBuffer fsb file w h).length = (w * h * 3) % 2 ^ 32 := by
  rw [loadImageBuffer, streamReadInto_length, List.length_replicate]

/-- C2 (amended): `LoadImage` allocates a destination buffer of exactly
`width*height*3 % 2^32` bytes — the size expression is the source's
wrapping 32-bit unsigned arithmetic — before reading, and the stream read
writes at most the buffer's length into it: the buffer the read produces
always has exactly the allocated length, which never exceeds the
mathematical `width*height*3`, whatever the file contains (in particular a
short file cannot make the read overrun the destination). -/
theorem loadImage_no_overrun (fsb : String → Option (List Nat)) (file : String)
    (w : Nat) (h : Nat) :
    (List.replicate ((w * h * 3) % 2 ^ 32) (0 : Nat)).length = (w * h * 3) % 2 ^ 32 ∧
    (∀ content buffer : List Nat, (streamReadInto content buffer).length = buffer.length) ∧
    (loadImageBuffer fsb file w h).length = (w * h * 3) % 2 ^ 32 ∧
    (loadImageBuffer fsb file w h).length ≤ w * h * 3 := by
  refine ⟨List.length_replicate _ _, streamReadInto_length,
    loadImageBuffer_length fsb file w h, ?_⟩
  rw [loadImageBuffer_length]
  exact Nat.mod_le _ _

/-- C2, refuted as frozen: at width = height = 38000 the mathematical
`width*height*3` is 4332000000, above `2^32`, and the program's 32-bit
size arithmetic wraps, so the allocated buffer does not hold exactly
`width*height*3` bytes. -/
theorem loadImage_no_overrun_cex :
    (loadImageBuffer (fun _ => none) "lena.rgb" 38000 38000).length ≠
      38000 * 38000 * 3 := by
  rw [loadImageBuffer_length]
  norm_num

/-- C10: `ShaderProgram` deletes both intermediate shader objects on every
path — whatever the compile and link statuses — and does so as its final
driver calls before returning; every shader it creates it also deletes, so
the program handle is the only object left to the caller. -/
theorem shaderProgram_deletes_shaders (env : GLEnv) (fs : String → Option String)
    (v : String) (f : String) :
    (∃ pre : List GLEvent, (ShaderProgram env fs v f).2 =
      pre ++ [GLEvent.deleteShader env.vertexShaderId,
              GLEvent.deleteShader env.fragmentShaderId]) ∧
    (∀ t id : Nat, GLEvent.createShader t id ∈ (ShaderProgram env fs v f).2 →
      GLEvent.deleteShader id ∈ (ShaderProgram env fs v f).2) := by
  constructor
  · exact ⟨_, rfl⟩
  · intro t id hmem
    rcases env with ⟨vsid, fsid, pid, vok, fok, lok, vlog, flog, plog⟩
    cases vok <;> cases fok <;> cases lok <;>
      simp_all [ShaderProgram] <;> tauto

/-- C3 (amended): `LoadImage` performs exactly the sequence: allocate a
texture handle, set linear mag and min filtering, request exactly
`width*height*3 % 2^32` bytes — the byte count the source's 32-bit
unsigned arithmetic yields — from the file opened in binary mode, upload
the buffer of exactly that many bytes as an 8-bit-per-channel RGB 2D
texture at mip level 0, and return the handle; no other read precedes the
pixel read (no header is read or validated) and nothing is ever printed
(short files are not reported). -/
theorem loadImage_exact_sequence (tid : Nat) (fsb : String → Option (List Nat))
    (file : String) (w : Nat) (h : Nat) :
    LoadImage tid fsb file w h =
      (tid,
       [GLEvent.genTextures 1 tid,
        GLEvent.bindTexture GL_TEXTURE_2D tid,
        GLEvent.texParameteri GL_TEXTURE_2D GL_TEXTURE_MAG_FILTER GL_LINEAR,
        GLEvent.texParameteri GL_TEXTURE_2D GL_TEXTURE_MIN_FILTER GL_LINEAR,
        GLEvent.readBinary file ((w * h * 3) % 2 ^ 32),
        GLEvent.texImage2D GL_TEXTURE_2D 0 GL_RGB w h 0 GL_RGB GL_UNSIGNED_BYTE
          (loadImageBuffer fsb file w h)]) ∧
    (loadImageBuffer fsb file w h).length = (w * h * 3) % 2 ^ 32 ∧
    (∀ s : String, GLEvent.print s ∉ (LoadImage tid fsb file w h).2) ∧
    (∀ s : String, GLEvent.printErr s ∉ (LoadImage tid fsb file w h).2) := by
  refine ⟨rfl, loadImageBuffer_length fsb file w h, ?_, ?_⟩ <;>
    intro s <;> simp [LoadImage]

/-- C3, refuted as frozen: at width = height = 38000 the program's read
requests the 2^32-wrapped byte count, 37032704, and no read of the
mathematical `width*height*3 = 4332000000` bytes occurs in its call
sequence. -/
theorem loadImage_exact_sequence_cex :
    GLEvent.readBinary "lena.rgb" ((38000 * 38000 * 3) % 2 ^ 32) ∈
      (LoadImage 1 (fun _ => none) "lena.rgb" 38000 38000).2 ∧
    GLEvent.readBinary "lena.rgb" (38000 * 38000 * 3) ∉
      (LoadImage 1 (fun _ => none) "lena.rgb" 38000 38000).2 := by
  constructor
  · simp [LoadImage]
  · intro hmem
    simp only [LoadImage, List.mem_cons, List.not_mem_nil, or_false] at hmem
    rcases hmem with h | h | h | h | h | h <;> simp_all

/-- C5: the position buffer holds exactly 4 two-component vertices, the
four NDC corners `(±1, ±1)`; `InitializeGeometry` uploads that buffer, the
render-loop draw call draws exactly 4 vertices with triangle-strip
topology, and the buffer's 8 floats exactly match the 4 two-component
vertices the draw call consumes. -/
theorem quad_fullviewport_strip (env : GeoEnv) (pid : Nat) :
    GLEvent.bufferData GL_ARRAY_BUFFER (vertex_buffer.length * sizeofGLfloat)
      vertex_buffer GL_STATIC_DRAW ∈ InitializeGeometry env pid ∧
    vertex_buffer =
      ([(1, 1), (-1, 1), (1, -1), (-1, -1)] : List (Int × Int)).flatMap
        (fun p => [p.1, p.2]) ∧
    ([(1, 1), (-1, 1), (1, -1), (-1, -1)] : List (Int × Int)).length = 4 ∧
    (∀ x y : Int, (x = 1 ∨ x = -1) → (y = 1 ∨ y = -1) →
      (x, y) ∈ ([(1, 1), (-1, 1), (1, -1), (-1, -1)] : List (Int × Int))) ∧
    GLEvent.drawArrays GL_TRIANGLE_STRIP 0 4 ∈ frameEvents ∧
    vertex_buffer.length = 4 * 2 := by
  refine ⟨by simp [InitializeGeometry], by decide, by decide, ?_, by decide, by decide⟩
  rintro x y (rfl | rfl) (rfl | rfl) <;> decide

/-- C8: `InitializeGeometry` looks up the locations of the named shader
inputs "Position" and "TexCoord" in the linked program, feeds whatever
locations the driver reports (the sentinel `-1` included) straight into the
attribute-pointer and enable calls, performs no validation, prints no
diagnostic, and its call sequence has the same fixed shape whatever the
lookups return. -/
theorem initializeGeometry_unchecked_attribs (env : GeoEnv) (pid : Nat) :
    GLEvent.getAttribLocation pid "Position" ∈ InitializeGeometry env pid ∧
    GLEvent.getAttribLocation pid "TexCoord" ∈ InitializeGeometry env pid ∧
    GLEvent.vertexAttribPointer env.positionLoc 2 GL_FLOAT false 0 0 ∈ InitializeGeometry env pid ∧
    GLEvent.enableVertexAttribArray env.positionLoc ∈ InitializeGeometry env pid ∧
    GLEvent.vertexAttribPointer env.texcoordLoc 2 GL_FLOAT false 0 0 ∈ InitializeGeometry env pid ∧
    GLEvent.enableVertexAttribArray env.texcoordLoc ∈ InitializeGeometry env pid ∧
    (∀ s : String, GLEvent.print s ∉ InitializeGeometry env pid) ∧
    (∀ s : String, GLEvent.printErr s ∉ InitializeGeometry env pid) ∧
    (InitializeGeometry env pid).length = 14 := by
  refine ⟨?_, ?_, ?_, ?_, ?_, ?_, ?_, ?_, rfl⟩ <;>
    simp [InitializeGeometry]

/-- C9 (amended): the pixel buffer is value-initialized to zero bytes
before the file read, so the final buffer is the file's bytes followed by
zeros: for a file shorter than the allocated `width*height*3 % 2^32` bytes
(the source's 32-bit unsigned size arithmetic) every byte of the allocated
buffer past the data actually read is deterministically zero, and a
missing file yields the all-zero buffer.  Bytes beyond the allocated
buffer do not exist, so only within it is the texture tail guaranteed
black. -/
theorem loadImage_tail_zero (fsb : String → Option (List Nat)) (file : String)
    (w : Nat) (h : Nat) :
    loadImageBuffer fsb file w h =
      ((fsb file).getD []).take ((w * h * 3) % 2 ^ 32) ++
        List.replicate
          ((w * h * 3) % 2 ^ 32 - min ((fsb file).getD []).length ((w * h * 3) % 2 ^ 32)) 0 ∧
    (fsb file = none →
      loadImageBuffer fsb file w h = List.replicate ((w * h * 3) % 2 ^ 32) 0) ∧
    (∀ i : Nat, ((fsb file).getD []).length ≤ i → i < (w * h * 3) % 2 ^ 32 →
      (loadImageBuffer fsb file w h)[i]? = some 0) := by
  have hmain : loadImageBuffer fsb file w h =
      ((fsb file).getD []).take ((w * h * 3) % 2 ^ 32) ++
        List.replicate
          ((w * h * 3) % 2 ^ 32 - min ((fsb file).getD []).length ((w * h * 3) % 2 ^ 32)) 0 := by
    simp [loadImageBuffer, streamReadInto, List.drop_replicate]
  refine ⟨hmain, ?_, ?_⟩
  · intro hnone
    simp [loadImageBuffer, streamReadInto, hnone, List.drop_replicate]
  · intro i hlen hi
    rw [hmain]
    rw [List.getElem?_append_right (by simp [List.length_take]; omega)]
    rw [List.getElem?_replicate]
    simp [List.length_take]
    omega

/-- C9, refuted as frozen: at width = height = 38000 with a missing file
(0 bytes read), byte index 37032704 lies past the data read and below the
mathematical `width*height*3 = 4332000000`, yet the buffer has no byte
there at all — the allocation wrapped to 37032704 bytes, and the upload
reads past it into arbitrary memory rather than deterministic zeros. -/
theorem loadImage_tail_zero_cex :
    (((fun _ => none : String → Option (List Nat)) "lena.rgb").getD []).length ≤ 37032704 ∧
    37032704 < 38000 * 38000 * 3 ∧
    (loadImageBuffer (fun _ => none) "lena.rgb" 38000 38000)[37032704]? ≠ some 0 := by
  refine ⟨by simp, by norm_num, ?_⟩
  rw [List.getElem?_eq_none]
  · simp
  · rw [loadImageBuffer_length]
    norm_num

/-- C6: a missing or unreadable shader source file is not checked:
`ShaderProgram` proceeds with the empty string as that stage's source; a
missing image file is not checked: `LoadImage` uploads the all-zero (black)
texture buffer of the allocated (2^32-wrapped) size; and the result and
the shape of the call sequence of
`ShaderProgram` do not depend on the file system at all, so file-read
failures never change control flow. -/
theorem file_read_failures_silent (env : GLEnv) (fs : String → Option String)
    (fs2 : String → Option String) (fsb : String → Option (List Nat))
    (v : String) (f : String) (file : String) (tid : Nat) (w : Nat) (h : Nat) :
    (fs v = none →
      GLEvent.shaderSource env.vertexShaderId 1 "" ∈ (ShaderProgram env fs v f).2) ∧
    (fs f = none →
      GLEvent.shaderSource env.fragmentShaderId 1 "" ∈ (ShaderProgram env fs v f).2) ∧
    (fsb file = none →
      GLEvent.texImage2D GL_TEXTURE_2D 0 GL_RGB w h 0 GL_RGB GL_UNSIGNED_BYTE
        (List.replicate ((w * h * 3) % 2 ^ 32) 0) ∈ (LoadImage tid fsb file w h).2) ∧
    (ShaderProgram env fs v f).1 = (ShaderProgram env fs2 v f).1 ∧
    (ShaderProgram env fs v f).2.length = (ShaderProgram env fs2 v f).2.length := by
  refine ⟨?_, ?_, ?_, rfl, ?_⟩
  · intro hv
    simp [ShaderProgram, hv]
  · intro hf
    simp [ShaderProgram, hf]
  · intro himg
    simp [LoadImage, loadImageBuffer, streamReadInto, himg, List.drop_replicate]
  · rcases env with ⟨vsid, fsid, pid, vok, fok, lok, vlog, flog, plog⟩
    cases vok <;> cases fok <;> cases lok <;> simp [ShaderProgram]

/-- C6, evaluated: with no file system at all, the vertex stage is given
the empty string as its source. -/
theorem file_read_failures_silent_witness :
    GLEvent.shaderSource 1 1 "" ∈
      (ShaderProgram ⟨1, 2, 3, true, true, true, "", "", ""⟩ (fun _ => none) "a" "b").2 := by
  exact (file_read_failures_silent ⟨1, 2, 3, true, true, true, "", "", ""⟩
    (fun _ => none) (fun _ => none) (fun _ => none) "a" "b" "c" 7 2 2).1 rfl

/-- C9, evaluated: a 2-byte file in a 1x1 RGB texture (3 bytes) leaves the
third byte zero. -/
theorem loadImage_tail_zero_witness :
    (loadImageBuffer (fun _ => some [9, 9]) "img" 1 1)[2]? = some 0 := by
  exact (loadImage_tail_zero (fun _ => some [9, 9]) "img" 1 1).2.2 2 (by decide) (by decide)

/-- C7: each iteration of the render loop performs exactly: set the fixed
gray clear colour, clear colour and depth buffers, one triangle-strip draw
of the 4 uploaded vertices, present the frame, poll events; the loop runs
that body once per `false` answer from the windowing collaborator and stops
only when it answers `true` (a close request), never mid-body. -/
theorem render_loop_contract :
    (∀ rest : List Bool, mainLoop (false :: rest) = frameEvents ++ mainLoop rest) ∧
    (∀ rest : List Bool, mainLoop (true :: rest) = []) ∧
    (∀ rest : List Bool, mainLoop (false :: rest) ≠ []) ∧
    frameEvents =
      [GLEvent.clearColor (1/2) (1/2) (1/2) 0,
       GLEvent.clear (GL_COLOR_BUFFER_BIT ||| GL_DEPTH_BUFFER_BIT),
       GLEvent.drawArrays GL_TRIANGLE_STRIP 0 4,
       GLEvent.swapBuffers,
       GLEvent.pollEvents] ∧
    (∀ flags : List Bool, mainLoop flags =
      (flags.takeWhile (fun b => !b)).flatMap (fun _ => frameEvents)) := by
  refine ⟨fun rest => rfl, fun rest => rfl, ?_, rfl, mainLoop_eq_flat⟩
  intro rest hcontra
  simp [mainLoop, frameEvents] at hcontra

/-- C4: the process exit code is `EXIT_SUCCESS` (0) exactly when all three
window/context initialization steps succeed — and then, the close request
arriving, the render loop ends normally; it is `EXIT_FAILURE` (nonzero)
exactly when GLFW fails to initialize, or no window/3.3 context can be
created, or GLEW does not support OpenGL 3.3. -/
theorem main_exit_codes (env : MainEnv) (fs : String → Option String)
    (fsb : String → Option (List Nat)) (hclose : true ∈ env.closeFlags) :
    ((GlTexture.main env fs fsb).1 = EXIT_SUCCESS ↔
      env.glfwInitOk = true ∧ env.windowOk = true ∧ env.glew33 = true) ∧
    ((GlTexture.main env fs fsb).1 = EXIT_FAILURE ↔
      ¬(env.glfwInitOk = true ∧ env.windowOk = true ∧ env.glew33 = true)) := by
  rcases env with ⟨gok, wok, eok, flags, gl, geo, tid, tul⟩
  cases gok <;> cases wok <;> cases eok <;>
    simp [GlTexture.main, EXIT_SUCCESS, EXIT_FAILURE]

/-- C4, evaluated: with all initialization steps succeeding and a close
request on the first loop query, the exit code is 0. -/
theorem main_exit_codes_witness :
    (GlTexture.main
      ⟨true, true, true, [true],
       ⟨1, 2, 3, true, true, true, "", "", ""⟩, ⟨4, 5, 6, 0, 1⟩, 7, 0⟩
      (fun _ => none) (fun _ => none)).1 = EXIT_SUCCESS := by
  have h := main_exit_codes
    ⟨true, true, true, [true],
     ⟨1, 2, 3, true, true, true, "", "", ""⟩, ⟨4, 5, 6, 0, 1⟩, 7, 0⟩
    (fun _ => none) (fun _ => none) (by decide)
  exact h.1.mpr ⟨rfl, rfl, rfl⟩
